import Mathlib

/-!
Verification development for the FernArchive REST backend (Go).

Shallow embedding of the request pipeline (authentication, authorization,
rate limiting, metrics), the data layer (movies, users, tokens,
permissions), and the lifecycle machinery (background tasks, graceful
shutdown), translated from the Go sources, together with theorems settling
the frozen claims about the program.
-/

namespace FernArchive

/-! ## Data model: users and identities (internal/data/users.go) -/

/-- A user row, as in `data.User`.  Only the fields the claims exercise are
carried. -/
structure User where
  id : String
  activated : Bool
  deriving Repr, DecidableEq

/-- The identity attached to a request by `contextSetUser`.  In Go the
anonymous sentinel is the distinguished pointer `data.AnonymousUser`, and
`IsAnonymous` is pointer equality with it; the embedding makes the sentinel
a separate constructor so that identity-comparison (not field comparison)
decides anonymity. -/
inductive Identity where
  | anonymous
  | known (u : User)
  deriving Repr, DecidableEq

/-- `User.IsAnonymous`: pointer comparison with the sentinel. -/
def Identity.isAnonymous : Identity → Bool
  | .anonymous => true
  | .known _ => false

/-- Field access `user.Activated`; the Go sentinel `&User{}` carries the
zero value `false`. -/
def Identity.activated : Identity → Bool
  | .anonymous => false
  | .known u => u.activated

/-- Field access `user.Id`; the Go sentinel carries the zero value. -/
def Identity.userId : Identity → String
  | .anonymous => ""
  | .known u => u.id

/-! ## Errors (internal/data, context package) -/

/-- The error values the handlers distinguish with `errors.Is`. -/
inductive GoError where
  | recordNotFound
  | editConflict
  | deadlineExceeded
  | canceled
  | duplicateEmail
  | other (msg : String)
  deriving Repr, DecidableEq

/-! ## Error responses (cmd/api errors file) -/

/-- The observable part of an error response: HTTP status and whether the
`WWW-Authenticate: Bearer` challenge header was set on it. -/
structure HttpResponse where
  status : Nat
  wwwAuthenticateBearer : Bool
  deriving Repr, DecidableEq

/-- `serverErrorResponse`: 500. -/
def serverErrorResponse : HttpResponse := ⟨500, false⟩

/-- `invalidAuthTokenResponse`: sets `WWW-Authenticate: Bearer`, then 401. -/
def invalidAuthTokenResponse : HttpResponse := ⟨401, true⟩

/-- `authRequiredResponse`: 401. -/
def authRequiredResponse : HttpResponse := ⟨401, false⟩

/-- `inactiveAccountResponse`: 403. -/
def inactiveAccountResponse : HttpResponse := ⟨403, false⟩

/-- `accessNotPermittedResponse`: 403. -/
def accessNotPermittedResponse : HttpResponse := ⟨403, false⟩

/-- `rateLimitExceededResponse`: 429. -/
def rateLimitExceededResponse : HttpResponse := ⟨429, false⟩

/-- `deadlineExceededResponse`: 504. -/
def deadlineExceededResponse : HttpResponse := ⟨504, false⟩

/-- `editConflictResponse`: 409. -/
def editConflictResponse : HttpResponse := ⟨409, false⟩

/-- `notFoundResponse`: 404. -/
def notFoundResponse : HttpResponse := ⟨404, false⟩

/-- `commonErrors` (cmd/api errors file): classifies a collaborator error.
`context.DeadlineExceeded` maps to the 504 response, `context.Canceled`
produces no response at all (the switch case has an empty body), and every
other error maps to the generic 500 response. -/
def commonErrors : GoError → Option HttpResponse
  | .deadlineExceeded => some deadlineExceededResponse
  | .canceled => none
  | _ => some serverErrorResponse

/-! ## Validator (internal/validator) -/

/-- Modelled from the spec: the `internal/validator` package is not among
the provided sources, only its callers are.  A validator accumulates
field-keyed messages; `Check` records the key and message when the
condition is false; `Valid` holds when no error was recorded. -/
structure Validator where
  errors : List (String × String)
  deriving Repr, DecidableEq

/-- `validator.NewValidator`. -/
def NewValidator : Validator := ⟨[]⟩

/-- `Validator.AddError`: records a message under a key not yet present. -/
def Validator.addError (v : Validator) (key msg : String) : Validator :=
  if (v.errors.map Prod.fst).contains key then v else ⟨v.errors ++ [(key, msg)]⟩

/-- `Validator.Check`: record the error when the condition fails. -/
def Validator.check (v : Validator) (ok : Bool) (key msg : String) : Validator :=
  if ok then v else v.addError key msg

/-- `Validator.Valid`: no errors recorded. -/
def Validator.valid (v : Validator) : Bool := v.errors.isEmpty

/-- `data.ValidateTokenPlainText` (tokens file): the plaintext must be
non-empty and exactly 26 characters long. -/
def ValidateTokenPlainText (vldtr : Validator) (plainTxt : String) : Validator :=
  (vldtr.check (plainTxt != "") "plainTxt" "must be provided").check
    (plainTxt.length == 26) "plainTxt" "must be 26 characters long"

/-! ## Authentication middleware (cmd/api/middleware.go, `authenticate`) -/

/-- Go `strings.SplitN(s, " ", 2)`: at most two parts, split at the first
space. -/
def goSplitN2 (s : String) : List String :=
  let cs := s.toList
  if cs.contains ' ' then
    [String.mk (cs.takeWhile (fun c => c ≠ ' ')),
     String.mk ((cs.dropWhile (fun c => c ≠ ' ')).drop 1)]
  else [s]

/-- Outcome of the `authenticate` middleware: either the next handler runs
with an identity attached to the request, or the chain short-circuits with
a response. -/
inductive AuthOutcome where
  | proceed (ident : Identity)
  | respond (resp : HttpResponse)
  deriving Repr, DecidableEq

/-- `authenticate` (middleware.go): the collaborator `lookup` stands for
`models.Users.GetForToken` on the authentication scope. -/
def authenticate (lookup : String → Except GoError User) (authHeader : String) : AuthOutcome :=
  if authHeader = "" then .proceed .anonymous
  else
    match goSplitN2 authHeader with
    | [scheme, authToken] =>
      if scheme ≠ "Bearer" then .respond invalidAuthTokenResponse
      else if ¬ (ValidateTokenPlainText NewValidator authToken).valid then
        .respond invalidAuthTokenResponse
      else
        match lookup authToken with
        | .error .recordNotFound => .respond invalidAuthTokenResponse
        | .error _ => .respond serverErrorResponse
        | .ok user => .proceed (.known user)
    | _ => .respond invalidAuthTokenResponse

/-- Restatement of the claimed behaviour of `authenticate`, following the
specification text case by case: empty header proceeds anonymously; a
header that is not exactly `Bearer` followed by a token, a token failing
the 26-character syntactic validation, and a lookup miss all yield the one
invalid-token response; a successful lookup proceeds with the resolved
user.  (A lookup failure other than record-not-found is the generic server
error.)  To be compared with `authenticate`. -/
def specAuthenticate (lookup : String → Except GoError User) (authHeader : String) : AuthOutcome :=
  if authHeader = "" then .proceed .anonymous
  else
    match goSplitN2 authHeader with
    | [scheme, authToken] =>
      if scheme = "Bearer" ∧ authToken ≠ "" ∧ authToken.length = 26 then
        match lookup authToken with
        | .error .recordNotFound => .respond invalidAuthTokenResponse
        | .error _ => .respond serverErrorResponse
        | .ok user => .proceed (.known user)
      else .respond invalidAuthTokenResponse
    | _ => .respond invalidAuthTokenResponse

/-! ## Authorization gate (cmd/api/middleware.go) -/

/-- Outcome of running a gated handler chain on a request. -/
inductive GateOutcome where
  | handled
  | respond (resp : HttpResponse)
  deriving Repr, DecidableEq

/-- A wrapped `http.HandlerFunc` in the gate: the identity was attached by
`authenticate`; the permission store collaborator is threaded explicitly. -/
abbrev Handler := Identity → GateOutcome

/-- `requireAuthenticatedUser`: rejects the anonymous sentinel with the
authentication-required response. -/
def requireAuthenticatedUser (next : Handler) : Handler := fun user =>
  if user.isAnonymous then .respond authRequiredResponse else next user

/-- `requireActivatedUser`: rejects a non-activated identity, composed
inside `requireAuthenticatedUser`. -/
def requireActivatedUser (next : Handler) : Handler :=
  requireAuthenticatedUser fun user =>
    if ¬ user.activated then .respond inactiveAccountResponse else next user

/-- `Permissions.Include` (internal/data/permissions.go). -/
def permissionsInclude (p : List String) (code : String) : Bool :=
  p.contains code

/-- `requirePermission` (middleware.go): fetches the permission
set via the collaborator `getAllForUser` (`models.Permissions.GetAllForUser`),
rejects when the code is missing, and wraps the whole check in
`requireActivatedUser`. -/
def requirePermission (getAllForUser : String → Except GoError (List String))
    (code : String) (next : Handler) : Handler :=
  requireActivatedUser fun user =>
    match getAllForUser user.userId with
    | .error _ => .respond serverErrorResponse
    | .ok permissions =>
      if ¬ permissionsInclude permissions code then .respond accessNotPermittedResponse
      else next user

/-! ## Metrics response writer (cmd/api/middleware.go) -/

/-- The recording state of `metricsResponseWriter` (the wrapped writer is
not part of the recorded state). -/
structure MetricsResponseWriter where
  statusCode : Nat
  headerWritten : Bool
  deriving Repr, DecidableEq

/-- `newMetricsResponseWriter`: status defaults to 200, header not yet
written. -/
def newMetricsResponseWriter : MetricsResponseWriter := ⟨200, false⟩

/-- `metricsResponseWriter.WriteHeader`: forwards to the wrapped writer and
records the code only when no header has been written yet. -/
def MetricsResponseWriter.writeHeader (mrw : MetricsResponseWriter) (code : Nat) :
    MetricsResponseWriter :=
  if ¬ mrw.headerWritten then ⟨code, true⟩ else mrw

/-- `metricsResponseWriter.Write`: marks the header as written (Go sends an
implicit 200 header on first body write) and forwards the bytes. -/
def MetricsResponseWriter.bodyWrite (mrw : MetricsResponseWriter) : MetricsResponseWriter :=
  ⟨mrw.statusCode, true⟩

/-- The calls a downstream handler makes on the wrapped response writer. -/
inductive WriterOp where
  | writeHeader (code : Nat)
  | write
  deriving Repr, DecidableEq

/-- Running a sequence of downstream writer calls against the recorder. -/
def runWriterOps (mrw : MetricsResponseWriter) : List WriterOp → MetricsResponseWriter
  | [] => mrw
  | .writeHeader c :: rest => runWriterOps (mrw.writeHeader c) rest
  | .write :: rest => runWriterOps mrw.bodyWrite rest

/-- The status `requestMetrics` records after the inner handler returns:
the `responses_sent_by_status` counter is keyed by this value. -/
def requestMetricsRecordedStatus (ops : List WriterOp) : Nat :=
  (runWriterOps newMetricsResponseWriter ops).statusCode

/-- Restatement of the claimed recorded status, following the claim words:
the argument of the first `WriteHeader` call, or 200 when the body is
written (or nothing at all is written) without an explicit `WriteHeader`
call first; the first header-writing call fixes the code for good. -/
def specRecordedStatus : List WriterOp → Nat
  | [] => 200
  | .writeHeader c :: _ => c
  | .write :: _ => 200

/-! ## Client rate limiter (cmd/api/middleware.go, `rateLimiter`)

The per-client limiter is `golang.org/x/time/rate.Limiter`.  Modelled from
the spec: the library is external to the repository; the spec describes it
as a token bucket with a configurable sustained rate and burst capacity —
a bucket holds up to `burst` tokens, refills continuously at `rps` tokens
per second, starts full, and `Allow` consumes one token when at least one
is available.  Time is measured in seconds as a rational number. -/

/-- Token-bucket state of one `rate.Limiter`. -/
structure Bucket where
  tokens : ℚ
  last : ℚ
  deriving Repr, DecidableEq

/-- The token count after advancing the bucket to time `now`: continuous
refill at `rps`, capped at `burst`. -/
def Bucket.advanced (b : Bucket) (rps burst now : ℚ) : ℚ :=
  let tk := b.tokens + rps * (now - b.last)
  if burst < tk then burst else tk

/-- `Limiter.Allow` at time `now`: consume one token when available. -/
def Bucket.allow (b : Bucket) (rps burst now : ℚ) : Bool × Bucket :=
  let tk := b.advanced rps burst now
  if 1 ≤ tk then (true, ⟨tk - 1, now⟩) else (false, ⟨tk, now⟩)

/-- `rate.NewLimiter(rps, burst)`: a fresh bucket is at full burst
capacity. -/
def newLimiter (burst now : ℚ) : Bucket := ⟨burst, now⟩

/-- One entry of the `clients` map in `rateLimiter`. -/
structure ClientEntry where
  bucket : Bucket
  lastSeen : ℚ
  deriving Repr, DecidableEq

/-- The limiter section of the `config` struct; defaults set by
`runClFlags`: rate 2/sec, burst 5, enabled. -/
structure LimiterConfig where
  rps : ℚ
  burst : ℚ
  enabled : Bool
  deriving Repr, DecidableEq

/-- Default limiter flags from `runClFlags` (cmd/api). -/
def defaultLimiterConfig : LimiterConfig := ⟨2, 5, true⟩

/-- Insert-or-replace in the `clients` map, keyed by client IP. -/
def setClient : List (String × ClientEntry) → String → ClientEntry → List (String × ClientEntry)
  | [], ip, e => [(ip, e)]
  | (k, v) :: rest, ip, e =>
    if k = ip then (ip, e) :: rest else (k, v) :: setClient rest ip e

/-- One pass of the `rateLimiter` middleware body for a request from `ip`
arriving at time `now`: when enabled, look the client up (creating a fresh
full bucket for an unseen client), stamp `lastSeen`, and consume a token;
`true` means the request is admitted to the next handler, `false` means it
is short-circuited with the 429 response. -/
def rateLimiterStep (cfg : LimiterConfig) (clients : List (String × ClientEntry))
    (ip : String) (now : ℚ) : Bool × List (String × ClientEntry) :=
  if cfg.enabled then
    let bucket :=
      match clients.lookup ip with
      | some entry => entry.bucket
      | none => newLimiter cfg.burst now
    let step := bucket.allow cfg.rps cfg.burst now
    (step.1, setClient clients ip ⟨step.2, now⟩)
  else (true, clients)

/-- Admission decisions for a sequence of (client, arrival-time) requests,
threading the `clients` map through. -/
def runRequests (cfg : LimiterConfig) (clients : List (String × ClientEntry)) :
    List (String × ℚ) → List Bool
  | [] => []
  | (ip, t) :: rest =>
    let step := rateLimiterStep cfg clients ip t
    step.1 :: runRequests cfg step.2 rest

/-! ## Token codec (internal/data tokens file, `generateToken`) -/

/-- The eight bits of a byte, most significant first. -/
def byteToBits (b : Nat) : List Bool :=
  [b / 128 % 2 == 1, b / 64 % 2 == 1, b / 32 % 2 == 1, b / 16 % 2 == 1,
   b / 8 % 2 == 1, b / 4 % 2 == 1, b / 2 % 2 == 1, b % 2 == 1]

/-- The bit stream of a byte sequence. -/
def bytesToBits : List Nat → List Bool
  | [] => []
  | b :: rest => byteToBits b ++ bytesToBits rest

/-- Split a bit stream into 5-bit groups; the final group may be shorter
(the encoder zero-pads it). -/
def chunk5 : List Bool → List (List Bool)
  | [] => []
  | b :: rest => (b :: rest.take 4) :: chunk5 (rest.drop 4)
termination_by l => l.length
decreasing_by simp [List.length_drop]; omega

/-- Value of one (at most 5-bit) group, zero-padded on the right to 5
bits, as base32 does for a final partial group. -/
def fiveBitsVal (bits : List Bool) : Nat :=
  (bits ++ List.replicate (5 - bits.length) false).foldl
    (fun acc b => 2 * acc + (if b then 1 else 0)) 0

/-- The standard base32 alphabet of `encoding/base32.StdEncoding`. -/
def base32Char (n : Nat) : Char :=
  "ABCDEFGHIJKLMNOPQRSTUVWXYZ234567".toList.getD n 'A'

/-- `base32.StdEncoding.WithPadding(base32.NoPadding).EncodeToString`:
5-bit groups of the input bit stream mapped through the alphabet, no
padding characters. -/
def base32EncodeNoPad (bytes : List Nat) : String :=
  String.mk ((chunk5 (bytesToBits bytes)).map (fun c => base32Char (fiveBitsVal c)))

/-- A `data.Token`; the hash is a byte list. -/
structure Token where
  plainText : String
  hash : List Nat
  userId : String
  expiry : ℚ
  scope : String
  deriving Repr, DecidableEq

/-- `generateToken` (tokens file): reads 16 random bytes, encodes them as
the unpadded-base32 plaintext, and stores the digest of the plaintext.
Modelled from the spec: `crypto/sha256` is an external primitive, so the
digest is an abstract function parameter `sha256`; the spec calls it a
fixed-length one-way digest, assumed where needed to produce 32 bytes. -/
def generateToken (sha256 : String → List Nat) (randomBytes : List Nat)
    (userId : String) (now ttl : ℚ) (scope : String) : Token :=
  let plainTxt := base32EncodeNoPad randomBytes
  ⟨plainTxt, sha256 plainTxt, userId, now + ttl, scope⟩

/-! ## Movie store (internal/data/movies.go)

The MySQL database is modelled relationally: the `movies`, `genres` and
`movie_genres` tables are row lists, the affected-row count of a statement is
the number of rows matched by its WHERE clause, and the transaction in
`Update` is rolled back (state unchanged) whenever the method returns an
error before commit. -/

/-- The in-memory `data.Movie` (the `CreatedAt` column is never consulted
by the claims and is omitted). -/
structure Movie where
  id : Int
  title : String
  year : Int
  runtime : Int
  genres : List String
  deriving Repr, DecidableEq

/-- A row of the `movies` table. -/
structure MovieRow where
  id : Int
  title : String
  year : Int
  runtime : Int
  deriving Repr, DecidableEq

/-- A row of the `genres` table. -/
structure GenreRow where
  id : Int
  name : String
  deriving Repr, DecidableEq

/-- A row of the `movie_genres` junction table. -/
structure MovieGenreRow where
  movieId : Int
  genreId : Int
  deriving Repr, DecidableEq

/-- The movie-side database state. -/
structure MoviesDb where
  movies : List MovieRow
  genres : List GenreRow
  movieGenres : List MovieGenreRow
  deriving Repr, DecidableEq

/-- Rows matched by `UPDATE movies SET title=?, runtime=?, year=? WHERE
id = ?` — the WHERE clause names the id alone. -/
def moviesMatched (db : MoviesDb) (movie : Movie) : Nat :=
  (db.movies.filter (fun r => r.id == movie.id)).length

/-- The junction rows `UPDATE` rebuilds for a movie: look each genre name
up in the `genres` table, failing on an unknown name. -/
def rebuildMovieGenres (genres : List GenreRow) (movieId : Int) :
    List String → Except GoError (List MovieGenreRow)
  | [] => .ok []
  | g :: rest =>
    match genres.find? (fun row => row.name == g) with
    | none => .error (.other ("unknown genre " ++ g))
    | some row =>
      match rebuildMovieGenres genres movieId rest with
      | .error e => .error e
      | .ok links => .ok (⟨movieId, row.id⟩ :: links)

/-- `MovieModel.Update`: update the row matched by id; an affected-row
count different from one is reported as `ErrEditConflict` and the
transaction is rolled back; otherwise the junction rows for the movie are
deleted and re-inserted from the in-memory genre list, and the
transaction commits. -/
def moviesUpdate (db : MoviesDb) (movie : Movie) : Except GoError MoviesDb :=
  if moviesMatched db movie ≠ 1 then .error .editConflict
  else
    let updatedRows := db.movies.map
      (fun r => if r.id == movie.id then ⟨movie.id, movie.title, movie.year, movie.runtime⟩ else r)
    let kept := db.movieGenres.filter (fun l => l.movieId != movie.id)
    match rebuildMovieGenres db.genres movie.id movie.genres with
    | .error e => .error e
    | .ok links => .ok ⟨updatedRows, db.genres, kept ++ links⟩

/-- `MovieModel.Get`: ids below one short-circuit to `ErrRecordNotFound`
before any query is issued (the second component records whether the
query ran); otherwise the join of the three tables produces the movie and
its genre names, or `ErrRecordNotFound` when no row matches. -/
def moviesGet (db : MoviesDb) (movieId : Int) : Except GoError Movie × Bool :=
  if movieId < 1 then (.error .recordNotFound, false)
  else
    match db.movies.find? (fun r => r.id == movieId) with
    | none => (.error .recordNotFound, true)
    | some r =>
      let names := (db.movieGenres.filter (fun l => l.movieId == movieId)).filterMap
        (fun l => (db.genres.find? (fun g => g.id == l.genreId)).map (fun g => g.name))
      (.ok ⟨r.id, r.title, r.year, r.runtime, names⟩, true)

/-- `MovieModel.Delete`: ids below one short-circuit to
`ErrRecordNotFound` before any statement runs; otherwise `DELETE FROM
movies WHERE id = ?` and an affected count different from one is
`ErrRecordNotFound`. -/
def moviesDelete (db : MoviesDb) (id : Int) : Except GoError MoviesDb × Bool :=
  if id < 1 then (.error .recordNotFound, false)
  else
    let affected := (db.movies.filter (fun r => r.id == id)).length
    if affected ≠ 1 then (.error .recordNotFound, true)
    else (.ok ⟨db.movies.filter (fun r => r.id != id), db.genres, db.movieGenres⟩, true)

/-! ## User store (internal/data/users.go) -/

/-- A row of the `users` table (password hash carried as bytes). -/
structure UserRow where
  id : String
  name : String
  email : String
  passwordHash : List Nat
  activated : Bool
  deriving Repr, DecidableEq

/-- Rows matched by `UPDATE users SET name=?, email=?, password_hash=?,
activated=? WHERE id = ?` — again the WHERE clause names the id alone. -/
def usersMatched (db : List UserRow) (user : UserRow) : Nat :=
  (db.filter (fun r => r.id == user.id)).length

/-- The MySQL duplicate-key failure (error 1062) on the unique email
column: some other row already holds the new email. -/
def usersEmailTaken (db : List UserRow) (user : UserRow) : Bool :=
  db.any (fun r => r.email == user.email && r.id != user.id)

/-- `UserModel.UpdateUser`: a duplicate email surfaces as
`ErrDuplicateEmail`; an affected-row count of zero is reported as
`ErrRecordNotFound`; otherwise the matched row is overwritten. -/
def usersUpdate (db : List UserRow) (user : UserRow) : Except GoError (List UserRow) :=
  if usersEmailTaken db user then .error .duplicateEmail
  else if usersMatched db user == 0 then .error .recordNotFound
  else .ok (db.map (fun r => if r.id == user.id then user else r))

/-! ## Context derivation (context.WithTimeout call sites) -/

/-- A Go `context.Context` as a derivation tree: the background root, a
per-request context, or a timeout child.  Cancelling a context cancels
exactly the contexts derived from it. -/
inductive Ctx where
  | background
  | request (id : Nat)
  | withTimeout (parent : Ctx) (seconds : ℚ)
  deriving Repr, DecidableEq

/-- Whether `c` is `root` or derived from it — the propagation relation
for cancellation and deadlines. -/
def Ctx.derivesFrom (c root : Ctx) : Bool :=
  if c = root then true
  else
    match c with
    | .withTimeout parent _ => parent.derivesFrom root
    | _ => false

/-- The context `authenticate` (middleware.go line 99) passes to
`models.Users.GetForToken`: `context.WithTimeout(context.Background(),
3*time.Second)` — the request context `reqCtx` is in scope but unused. -/
def authLookupCtx (_reqCtx : Ctx) : Ctx := Ctx.withTimeout .background 3

/-- The context `requirePermission` (middleware.go line 121) passes to
`models.Permissions.GetAllForUser`, likewise derived from
`context.Background()`. -/
def permissionLookupCtx (_reqCtx : Ctx) : Ctx := Ctx.withTimeout .background 3

/-- The context `PermissionModel.GetAllForUser` (permissions.go line 27)
actually queries with: the `ctx` argument is shadowed by a fresh
`context.WithTimeout(context.Background(), 3*time.Second)`. -/
def getAllForUserQueryCtx (_callerCtx : Ctx) : Ctx := Ctx.withTimeout .background 3

/-! ## Path-parameter parsing (cmd/api helpers, `readIdParam`) -/

/-- A decimal digit value, or failure. -/
def decDigit? (c : Char) : Option Nat :=
  if c.isDigit then some (c.toNat - 48) else none

/-- Accumulating decimal value of a digit run; any non-digit fails. -/
def decValueAux : List Char → Nat → Option Nat
  | [], acc => some acc
  | c :: rest, acc =>
    match decDigit? c with
    | none => none
    | some d => decValueAux rest (10 * acc + d)

/-- Go `strconv.ParseInt(s, 10, 64)`: optional sign, then at least one
decimal digit, rejecting values outside the signed 64-bit range (range
overflow makes `ParseInt` return a non-nil error, which is all
`readIdParam` looks at). -/
def goParseInt64 (s : String) : Option Int :=
  let cs := s.toList
  let signed : Bool × List Char :=
    match cs with
    | '+' :: rest => (false, rest)
    | '-' :: rest => (true, rest)
    | rest => (false, rest)
  if signed.2.isEmpty then none
  else
    match decValueAux signed.2 0 with
    | none => none
    | some n =>
      if signed.1 then (if n ≤ 2 ^ 63 then some (-(n : Int)) else none)
      else (if n ≤ 2 ^ 63 - 1 then some (n : Int) else none)

/-- `readIdParam`: the `id` path parameter must parse as an integer and be
at least one, otherwise the helper reports the invalid-id error. -/
def readIdParam (param : String) : Except GoError Int :=
  match goParseInt64 param with
  | none => .error (.other "invalid id")
  | some id => if id < 1 then .error (.other "invalid id") else .ok id

/-! ## Movie handlers (cmd/api/movies.go)

Each handler is modelled as a function of the raw `id` path parameter and
its store collaborators, returning the response it writes together with a
flag recording whether any store access was issued. -/

/-- `showMovieHandler`: invalid id means the 404 response with no store
access; otherwise `Movies.Get` decides between 404, 500 and the 200 page. -/
def showMovieHandler (db : MoviesDb) (param : String) : HttpResponse × Bool :=
  match readIdParam param with
  | .error _ => (notFoundResponse, false)
  | .ok id =>
    match moviesGet db id with
    | (.error .recordNotFound, _) => (notFoundResponse, true)
    | (.error _, _) => (serverErrorResponse, true)
    | (.ok _, _) => (⟨200, false⟩, true)

/-- `deleteMovieHandler`: invalid id means the 404 response with no store
access; otherwise `Movies.Delete` decides between 404, 500 and the 200
message. -/
def deleteMovieHandler (db : MoviesDb) (param : String) : HttpResponse × Bool :=
  match readIdParam param with
  | .error _ => (notFoundResponse, false)
  | .ok id =>
    match (moviesDelete db id).1 with
    | .error .recordNotFound => (notFoundResponse, true)
    | .error _ => (serverErrorResponse, true)
    | .ok _ => (⟨200, false⟩, true)

/-- `updateMovieHandler` up to its first store access: invalid id means
the 404 response with no store access; otherwise the handler fetches the
movie (404 on record-not-found, 500 on other failures) and only then goes
on to body decoding, validation and the store update — that continuation
is abstracted as `cont`, since the claim concerns the early return. -/
def updateMovieHandler (db : MoviesDb) (cont : Movie → HttpResponse)
    (param : String) : HttpResponse × Bool :=
  match readIdParam param with
  | .error _ => (notFoundResponse, false)
  | .ok id =>
    match (moviesGet db id).1 with
    | .error .recordNotFound => (notFoundResponse, true)
    | .error _ => (serverErrorResponse, true)
    | .ok movie => (cont movie, true)

/-! ## Background tasks (cmd/api helpers, `background`) -/

/-- How a scheduled task function terminates. -/
inductive TaskBody where
  | normal
  | panics (msg : String)
  deriving Repr, DecidableEq

/-- The observable actions of the goroutine `background` spawns. -/
inductive TaskAct where
  | ranFn
  | panicked (msg : String)
  | loggedPanic (msg : String)
  | done
  deriving Repr, DecidableEq

/-- The deferred calls the goroutine body registers, in registration
order: `wtgrp.Done()` first, then the recover-and-log closure.  Go runs
deferred calls in reverse registration order, both on normal return and
during panic unwinding. -/
def backgroundDefers : List TaskAct := [.done, .loggedPanic ""]

/-- Executing one task spawned by `background`: the function runs (and may
panic), then the recover closure observes the panic and logs it, then
`Done` runs — in every case each deferred call runs exactly once. -/
def runBackgroundTask (body : TaskBody) : List TaskAct :=
  match body with
  | .normal => [.ranFn, .done]
  | .panics m => [.ranFn, .panicked m, .loggedPanic m, .done]

/-- Net effect of one task on the wait-group counter: the single `Done`. -/
def doneCount (acts : List TaskAct) : Nat :=
  (acts.filter (fun a => a == TaskAct.done)).length

/-! ## Lifecycle (`serve` in the server file, `background`, `main`)

The shutdown interaction is a small-step transition system over the
wait-group counter, the set of unfinished background tasks and the
control point of the shutdown goroutine and of `main`.  `sync.WaitGroup`
semantics: `Add(1)` on spawn, `Done` once per task, `Wait` returns only
when the counter is zero. -/

/-- Control point of the shutdown path. -/
inductive ServePhase where
  | serving
  | signalReceived
  | listenerClosed (shutdownErr : Option GoError)
  | draining
  | drained
  | stoppedReported
  | exitedWithError (e : GoError)
  deriving Repr, DecidableEq

/-- Lifecycle state: wait-group counter, unfinished task bodies, count of
finished tasks, and the control phase. -/
structure ServeState where
  counter : Nat
  pending : List TaskBody
  finished : Nat
  phase : ServePhase
  deriving Repr, DecidableEq

/-- Whether handlers may still call `background` in this phase (requests
are in flight until the listener has finished shutting down). -/
def ServePhase.acceptsSpawn : ServePhase → Bool
  | .serving => true
  | .signalReceived => true
  | .listenerClosed _ => true
  | _ => false

/-- The process is gone in this phase. -/
def ServePhase.exited : ServePhase → Bool
  | .exitedWithError _ => true
  | _ => false

/-- One interleaved step of the lifecycle: task scheduling and completion
race freely with the shutdown goroutine; `srvr.Shutdown` either returns
nil after the 30-second grace or returns an error; on an error the
goroutine sends it and `main` returns it (`serve` never reaches the
wait); on nil the goroutine enters `wtgrp.Wait()`, which returns only
with the counter at zero, sends nil, and `main` then logs that the server
stopped. -/
inductive ServeStep : ServeState → ServeState → Prop where
  | spawn (b : TaskBody) (c : Nat) (p : List TaskBody) (f : Nat) (ph : ServePhase) :
      ph.acceptsSpawn = true →
      ServeStep ⟨c, p, f, ph⟩ ⟨c + 1, b :: p, f, ph⟩
  | finishTask (b : TaskBody) (c : Nat) (p₁ p₂ : List TaskBody) (f : Nat) (ph : ServePhase) :
      ph.exited = false →
      ServeStep ⟨c + 1, p₁ ++ b :: p₂, f, ph⟩ ⟨c, p₁ ++ p₂, f + 1, ph⟩
  | signal (c : Nat) (p : List TaskBody) (f : Nat) :
      ServeStep ⟨c, p, f, .serving⟩ ⟨c, p, f, .signalReceived⟩
  | shutdownReturns (r : Option GoError) (c : Nat) (p : List TaskBody) (f : Nat) :
      ServeStep ⟨c, p, f, .signalReceived⟩ ⟨c, p, f, .listenerClosed r⟩
  | shutdownFailed (e : GoError) (c : Nat) (p : List TaskBody) (f : Nat) :
      ServeStep ⟨c, p, f, .listenerClosed (some e)⟩ ⟨c, p, f, .exitedWithError e⟩
  | beginWait (c : Nat) (p : List TaskBody) (f : Nat) :
      ServeStep ⟨c, p, f, .listenerClosed none⟩ ⟨c, p, f, .draining⟩
  | waitReturns (p : List TaskBody) (f : Nat) :
      ServeStep ⟨0, p, f, .draining⟩ ⟨0, p, f, .drained⟩
  | reportStopped (p : List TaskBody) (f : Nat) :
      ServeStep ⟨0, p, f, .drained⟩ ⟨0, p, f, .stoppedReported⟩

/-- The boot state of `serve`. -/
def serveInit : ServeState := ⟨0, [], 0, .serving⟩

/-- Reachability along lifecycle steps. -/
def ServeReachable (s : ServeState) : Prop :=
  Relation.ReflTransGen ServeStep serveInit s

/-- The invariant tying the wait-group counter to the unfinished tasks. -/
def ServeInv (s : ServeState) : Prop :=
  s.counter = s.pending.length ∧
  ((s.phase = .drained ∨ s.phase = .stoppedReported) → s.pending = [])

/-! ## Helper lemmas -/

/-- The token validator passes exactly the non-empty 26-character
plaintexts. -/
theorem validateTokenPlainText_valid (t : String) :
    (ValidateTokenPlainText NewValidator t).valid
      = ((t != "") && (t.length == 26)) := by
  by_cases h1 : t = "" <;> by_cases h2 : t.length = 26 <;>
    simp [ValidateTokenPlainText, NewValidator, Validator.check,
      Validator.addError, Validator.valid, h1, h2]

/-- Once the header is written, every further writer call leaves the
recorder unchanged. -/
theorem runWriterOps_headerWritten (ops : List WriterOp) (m : MetricsResponseWriter)
    (h : m.headerWritten = true) : runWriterOps m ops = m := by
  induction ops generalizing m with
  | nil => rfl
  | cons op rest ih =>
    cases op with
    | writeHeader c =>
      show runWriterOps (m.writeHeader c) rest = m
      have : m.writeHeader c = m := by
        simp [MetricsResponseWriter.writeHeader, h]
      rw [this, ih m h]
    | write =>
      show runWriterOps m.bodyWrite rest = m
      have : m.bodyWrite = m := by
        cases m
        simp_all [MetricsResponseWriter.bodyWrite]
      rw [this, ih m h]

/-! ## Claim theorems -/

/-- C1: for every request whose attached identity is the anonymous
sentinel, a handler wrapped by `requirePermission(code)` produces the
authentication-required outcome — never the inactive-account or
missing-permission outcome — for every permission code and every
permission store: the activated and permission checks are wrapped inside
`requireAuthenticatedUser`, which short-circuits first. -/
theorem requirePermission_anonymous_is_authRequired
    (getAllForUser : String → Except GoError (List String))
    (code : String) (next : Handler) :
    requirePermission getAllForUser code next .anonymous
        = .respond authRequiredResponse ∧
    requirePermission getAllForUser code next .anonymous
        ≠ .respond inactiveAccountResponse ∧
    requirePermission getAllForUser code next .anonymous
        ≠ .respond accessNotPermittedResponse := by
  have h : requirePermission getAllForUser code next .anonymous
      = .respond authRequiredResponse := rfl
  exact ⟨h, by rw [h]; decide, by rw [h]; decide⟩

/-- C2: the `authenticate` middleware behaves exactly as the claim
describes — an absent header attaches the anonymous identity and
continues; a malformed header, a token failing the syntactic validation,
and a token whose lookup yields record-not-found all short-circuit with
the one invalid-token response (the 401 carrying the WWW-Authenticate
challenge); a successful lookup attaches the resolved user and
continues. -/
theorem authenticate_eq_specAuthenticate
    (lookup : String → Except GoError User) (header : String) :
    authenticate lookup header = specAuthenticate lookup header ∧
    invalidAuthTokenResponse.status = 401 ∧
    invalidAuthTokenResponse.wwwAuthenticateBearer = true := by
  refine ⟨?_, rfl, rfl⟩
  unfold authenticate specAuthenticate
  by_cases h : header = ""
  · simp [h]
  · simp only [h, if_false]
    rcases hsp : goSplitN2 header with _ | ⟨scheme, _ | ⟨tok, _ | ⟨c, rest⟩⟩⟩
    · rfl
    · rfl
    · by_cases hb : scheme = "Bearer"
      · subst hb
        by_cases h1 : tok = "" <;> by_cases h2 : tok.length = 26 <;>
          simp [validateTokenPlainText_valid, h1, h2]
      · simp [hb]
    · rfl

/-- C8: the common error classifier maps deadline-exceeded to the
gateway-timeout 504 response, swallows cancellation with no response at
all, and maps every other error to the generic 500 response — exactly one
response kind per error class. -/
theorem commonErrors_classification :
    commonErrors .deadlineExceeded = some deadlineExceededResponse ∧
    commonErrors .canceled = none ∧
    ∀ e : GoError, e ≠ .deadlineExceeded → e ≠ .canceled →
      commonErrors e = some serverErrorResponse := by
  refine ⟨rfl, rfl, ?_⟩
  intro e h1 h2
  cases e with
  | deadlineExceeded => exact absurd rfl h1
  | canceled => exact absurd rfl h2
  | recordNotFound => rfl
  | editConflict => rfl
  | duplicateEmail => rfl
  | other m => rfl

/-- Witness for C8: a concrete collaborator failure that is neither
deadline-exceeded nor cancellation gets the 500 response. -/
theorem commonErrors_classification_witness :
    commonErrors (.other "connection refused") = some serverErrorResponse :=
  commonErrors_classification.2.2 (.other "connection refused")
    (by decide) (by decide)

/-- C9: the status recorded by the metrics stage is the argument of the
first downstream `WriteHeader` call, or 200 when the body (or nothing) is
written without an explicit `WriteHeader` first; and once the header has
been written, a later `WriteHeader` never changes the recorded code. -/
theorem requestMetrics_recordedStatus (ops : List WriterOp) :
    requestMetricsRecordedStatus ops = specRecordedStatus ops ∧
    ∀ s c : Nat, (MetricsResponseWriter.writeHeader ⟨s, true⟩ c).statusCode = s := by
  constructor
  · cases ops with
    | nil => rfl
    | cons op rest =>
      cases op with
      | writeHeader c =>
        show (runWriterOps (newMetricsResponseWriter.writeHeader c) rest).statusCode = c
        rw [show newMetricsResponseWriter.writeHeader c
              = (⟨c, true⟩ : MetricsResponseWriter) from rfl,
            runWriterOps_headerWritten rest ⟨c, true⟩ rfl]
      | write =>
        show (runWriterOps newMetricsResponseWriter.bodyWrite rest).statusCode = 200
        rw [show newMetricsResponseWriter.bodyWrite
              = (⟨200, true⟩ : MetricsResponseWriter) from rfl,
            runWriterOps_headerWritten rest ⟨200, true⟩ rfl]
  · intro s c
    rfl

/-- Each byte contributes eight bits. -/
theorem bytesToBits_length (bytes : List Nat) :
    (bytesToBits bytes).length = 8 * bytes.length := by
  induction bytes with
  | nil => rfl
  | cons b rest ih =>
    simp [bytesToBits, byteToBits, ih]
    ring

/-- The number of 5-bit groups is the bit count rounded up to fives. -/
theorem chunk5_length (l : List Bool) : (chunk5 l).length = (l.length + 4) / 5 := by
  match l with
  | [] => simp [chunk5]
  | b :: rest =>
    have ih := chunk5_length (rest.drop 4)
    simp only [chunk5, List.length_cons, List.length_drop] at *
    omega
termination_by l.length
decreasing_by simp [List.length_drop]; omega

/-- Unpadded base32 output length: one character per 5-bit group. -/
theorem base32EncodeNoPad_length (bytes : List Nat) :
    (base32EncodeNoPad bytes).length = (8 * bytes.length + 4) / 5 := by
  simp [base32EncodeNoPad, String.length, chunk5_length, bytesToBits_length]

/-- A 26-character string is not empty. -/
theorem length26_bne_empty (s : String) (h : s.length = 26) : (s != "") = true := by
  refine bne_iff_ne.mpr ?_
  intro e
  rw [e] at h
  simp at h

/-- C6: every token produced by `generateToken` has a plaintext of
exactly 26 characters (the unpadded base32 encoding of its 16 random
bytes) and a hash equal to the fixed-length SHA-256 digest of the
plaintext, so every issued plaintext passes `ValidateTokenPlainText`,
the check performed before any store lookup. -/
theorem generateToken_plaintext_and_hash (sha256 : String → List Nat)
    (randomBytes : List Nat) (h32 : ∀ s, (sha256 s).length = 32)
    (h16 : randomBytes.length = 16) (userId : String) (now ttl : ℚ) (scope : String) :
    (generateToken sha256 randomBytes userId now ttl scope).plainText.length = 26 ∧
    (generateToken sha256 randomBytes userId now ttl scope).plainText
      = base32EncodeNoPad randomBytes ∧
    (generateToken sha256 randomBytes userId now ttl scope).hash
      = sha256 (generateToken sha256 randomBytes userId now ttl scope).plainText ∧
    (generateToken sha256 randomBytes userId now ttl scope).hash.length = 32 ∧
    (ValidateTokenPlainText NewValidator
      (generateToken sha256 randomBytes userId now ttl scope).plainText).valid = true := by
  have hpt : (generateToken sha256 randomBytes userId now ttl scope).plainText
      = base32EncodeNoPad randomBytes := rfl
  have hlen : (generateToken sha256 randomBytes userId now ttl scope).plainText.length = 26 := by
    rw [hpt, base32EncodeNoPad_length, h16]
  refine ⟨hlen, hpt, rfl, h32 _, ?_⟩
  rw [validateTokenPlainText_valid, length26_bne_empty _ hlen]
  simp [hlen]

/-- Witness for C6 at a concrete byte array and digest function. -/
theorem generateToken_plaintext_and_hash_witness :
    (generateToken (fun _ => List.replicate 32 0) (List.replicate 16 0)
      "u" 0 1 "authentication").plainText.length = 26 ∧
    (generateToken (fun _ => List.replicate 32 0) (List.replicate 16 0)
      "u" 0 1 "authentication").plainText = base32EncodeNoPad (List.replicate 16 0) ∧
    (generateToken (fun _ => List.replicate 32 0) (List.replicate 16 0)
      "u" 0 1 "authentication").hash
      = (fun _ => List.replicate 32 (0 : Nat))
        ((generateToken (fun _ => List.replicate 32 0) (List.replicate 16 0)
          "u" 0 1 "authentication").plainText) ∧
    (generateToken (fun _ => List.replicate 32 0) (List.replicate 16 0)
      "u" 0 1 "authentication").hash.length = 32 ∧
    (ValidateTokenPlainText NewValidator
      (generateToken (fun _ => List.replicate 32 0) (List.replicate 16 0)
        "u" 0 1 "authentication").plainText).valid = true :=
  generateToken_plaintext_and_hash (fun _ => List.replicate 32 0)
    (List.replicate 16 0) (fun _ => rfl) rfl "u" 0 1 "authentication"

/-- C3 counterexample: `UserModel.UpdateUser` on a database holding no
matching row (zero affected rows) reports `ErrRecordNotFound`, not
`ErrEditConflict`; and a movie update based on a stale observation still
succeeds — two sequential updates of movie 1, both prepared from the same
originally fetched state, both return success, the second silently
overwriting the first — because the UPDATE is conditioned on the id only
and no version column exists. -/
theorem versioned_update_claim_false :
    usersUpdate [] ⟨"u1", "Al", "al@example.com", [1], true⟩
      = .error .recordNotFound ∧
    (Except.error GoError.recordNotFound
      ≠ (Except.error GoError.editConflict : Except GoError (List UserRow))) ∧
    moviesUpdate ⟨[⟨1, "Old", 1999, 100⟩], [], []⟩ ⟨1, "A", 1999, 100, []⟩
      = .ok ⟨[⟨1, "A", 1999, 100⟩], [], []⟩ ∧
    moviesUpdate ⟨[⟨1, "A", 1999, 100⟩], [], []⟩ ⟨1, "B", 1999, 100, []⟩
      = .ok ⟨[⟨1, "B", 1999, 100⟩], [], []⟩ := by
  refine ⟨rfl, by simp, rfl, rfl⟩

/-- C3 (amended): store-level updates are conditioned on the target id
alone — the matched-row count of the movie UPDATE depends only on the id,
there is no version column; `MovieModel.Update` reports an affected-row
count different from one as an edit conflict, while `UserModel.UpdateUser`
(absent a duplicate-email failure) reports a zero affected-row count as
record-not-found; the handlers report not-found when the initial fetch
fails. -/
theorem update_conditioned_on_id_only (db : MoviesDb) (m m2 : Movie)
    (udb : List UserRow) (u : UserRow) :
    (m.id = m2.id → moviesMatched db m = moviesMatched db m2) ∧
    (moviesMatched db m ≠ 1 → moviesUpdate db m = .error .editConflict) ∧
    (usersEmailTaken udb u = false → usersMatched udb u = 0 →
      usersUpdate udb u = .error .recordNotFound) := by
  refine ⟨?_, ?_, ?_⟩
  · intro h
    simp [moviesMatched, h]
  · intro h
    simp [moviesUpdate, h]
  · intro h1 h2
    simp [usersUpdate, h1, h2]

/-- Witness for the amended C3 at concrete databases. -/
theorem update_conditioned_on_id_only_witness :
    usersUpdate [] ⟨"u2", "Bo", "bo@example.com", [2], false⟩
      = .error .recordNotFound :=
  (update_conditioned_on_id_only ⟨[], [], []⟩ ⟨1, "t", 2000, 100, []⟩
    ⟨1, "t", 2000, 100, []⟩ [] ⟨"u2", "Bo", "bo@example.com", [2], false⟩).2.2
    (by decide) (by decide)

/-- C7 counterexample: the context `authenticate` hands to the token
lookup, the context `requirePermission` hands to the permission fetch, and
the context `GetAllForUser` actually queries with are all fresh 3-second
children of `context.Background()`; none of them derives from a concrete
request context, so cancelling the request does not cancel the lookups. -/
theorem lookup_ctx_not_derived_from_request :
    authLookupCtx (.request 0) = Ctx.withTimeout .background 3 ∧
    (authLookupCtx (.request 0)).derivesFrom (.request 0) = false ∧
    (permissionLookupCtx (.request 0)).derivesFrom (.request 0) = false ∧
    (getAllForUserQueryCtx (.request 0)).derivesFrom (.request 0) = false := by
  refine ⟨rfl, ?_, ?_, ?_⟩ <;> simp [authLookupCtx, permissionLookupCtx,
    getAllForUserQueryCtx, Ctx.derivesFrom]

/-- C7 (amended): the token-based identity lookup of the authentication
stage and the permission fetch of the authorization stage run under fresh
3-second contexts derived from `context.Background()`, not from the
request context; cancelling the request context does not propagate to
them. -/
theorem lookup_ctx_background_only (i : Nat) :
    authLookupCtx (.request i) = Ctx.withTimeout .background 3 ∧
    permissionLookupCtx (.request i) = Ctx.withTimeout .background 3 ∧
    getAllForUserQueryCtx (.request i) = Ctx.withTimeout .background 3 ∧
    (Ctx.withTimeout .background 3).derivesFrom (.request i) = false := by
  refine ⟨rfl, rfl, rfl, ?_⟩
  simp [Ctx.derivesFrom]

/-- C10: an `id` path parameter that fails integer parsing or parses
below one makes the show, update and delete movie handlers return the 404
response with no store access, and `MovieModel.Get` and
`MovieModel.Delete` return record-not-found for every id below one before
issuing any query. -/
theorem invalid_id_notFound_without_store (param : String) (db : MoviesDb)
    (cont : Movie → HttpResponse) (id : Int) :
    ((goParseInt64 param = none ∨ (∃ v, goParseInt64 param = some v ∧ v < 1)) →
      showMovieHandler db param = (notFoundResponse, false) ∧
      deleteMovieHandler db param = (notFoundResponse, false) ∧
      updateMovieHandler db cont param = (notFoundResponse, false)) ∧
    (id < 1 →
      moviesGet db id = (.error .recordNotFound, false) ∧
      moviesDelete db id = (.error .recordNotFound, false)) := by
  constructor
  · intro h
    have hrd : readIdParam param = .error (.other "invalid id") := by
      rcases h with h | ⟨v, hv, hlt⟩
      · simp [readIdParam, h]
      · simp [readIdParam, hv, hlt]
    refine ⟨?_, ?_, ?_⟩ <;>
      simp [showMovieHandler, deleteMovieHandler, updateMovieHandler, hrd]
  · intro h
    constructor <;> simp [moviesGet, moviesDelete, h]

/-- Witness for C10: the parameter "abc" does not parse; id 0 is below
one. -/
theorem invalid_id_notFound_without_store_witness :
    (showMovieHandler ⟨[], [], []⟩ "abc" = (notFoundResponse, false) ∧
     deleteMovieHandler ⟨[], [], []⟩ "abc" = (notFoundResponse, false) ∧
     updateMovieHandler ⟨[], [], []⟩ (fun _ => ⟨200, false⟩) "abc"
       = (notFoundResponse, false)) ∧
    (moviesGet ⟨[], [], []⟩ 0 = (.error .recordNotFound, false) ∧
     moviesDelete ⟨[], [], []⟩ 0 = (.error .recordNotFound, false)) :=
  ⟨(invalid_id_notFound_without_store "abc" ⟨[], [], []⟩
      (fun _ => ⟨200, false⟩) 0).1 (Or.inl (by decide)),
   (invalid_id_notFound_without_store "abc" ⟨[], [], []⟩
      (fun _ => ⟨200, false⟩) 0).2 (by decide)⟩

/-- C4: with the default limiter flags of `runClFlags` (sustained rate
2/sec, burst 5, enabled): a previously unseen client is given a fresh
bucket at full burst capacity, so its request is admitted; for the client
key "10.0.0.5", of six requests at one instant the first five are
admitted and the sixth denied, and after a one-second wait exactly two
more are admitted before the next denial; in general a request that finds
less than one token after refill is denied, and one refill interval (half
a second at rate 2) starting from an empty bucket admits exactly one more
request. -/
theorem rateLimiter_token_bucket (clients : List (String × ClientEntry))
    (ip : String) (now : ℚ) (b : Bucket) (t0 : ℚ) :
    runRequests defaultLimiterConfig []
      [("10.0.0.5", 0), ("10.0.0.5", 0), ("10.0.0.5", 0), ("10.0.0.5", 0),
       ("10.0.0.5", 0), ("10.0.0.5", 0), ("10.0.0.5", 1), ("10.0.0.5", 1),
       ("10.0.0.5", 1)]
      = [true, true, true, true, true, false, true, true, false] ∧
    (clients.lookup ip = none →
      (rateLimiterStep defaultLimiterConfig clients ip now).1 = true) ∧
    (b.advanced 2 5 now < 1 → (b.allow 2 5 now).1 = false) ∧
    ((Bucket.allow ⟨0, t0⟩ 2 5 (t0 + 1/2)).1 = true ∧
      ((Bucket.allow ⟨0, t0⟩ 2 5 (t0 + 1/2)).2.allow 2 5 (t0 + 1/2)).1 = false) := by
  refine ⟨?_, ?_, ?_, ?_⟩
  · norm_num [runRequests, rateLimiterStep, defaultLimiterConfig, newLimiter,
      setClient, Bucket.allow, Bucket.advanced]
  · intro h
    norm_num [rateLimiterStep, defaultLimiterConfig, h, newLimiter,
      Bucket.allow, Bucket.advanced]
  · intro h
    have h2 : ¬ (1 ≤ b.advanced 2 5 now) := not_le.mpr h
    simp [Bucket.allow, h2]
  · have h1 : (0 : ℚ) + 2 * (t0 + 1 / 2 - t0) = 1 := by ring
    constructor
    · simp only [Bucket.allow, Bucket.advanced]
      norm_num [h1]
    · simp only [Bucket.allow, Bucket.advanced]
      norm_num [h1]

/-- Witness for C4: the unseen client "10.0.0.5" is admitted from the
empty client map; an empty bucket consulted with no elapsed time is
denied; a half-second refill from empty admits a request. -/
theorem rateLimiter_token_bucket_witness :
    (rateLimiterStep defaultLimiterConfig [] "10.0.0.5" 0).1 = true ∧
    (Bucket.allow ⟨0, 0⟩ 2 5 0).1 = false ∧
    (Bucket.allow ⟨0, 0⟩ 2 5 (0 + 1 / 2)).1 = true :=
  ⟨(rateLimiter_token_bucket [] "10.0.0.5" 0 ⟨0, 0⟩ 0).2.1 rfl,
   (rateLimiter_token_bucket [] "10.0.0.5" 0 ⟨0, 0⟩ 0).2.2.1
     (by norm_num [Bucket.advanced]),
   (rateLimiter_token_bucket [] "10.0.0.5" 0 ⟨0, 0⟩ 0).2.2.2.1⟩

/-- A phase that still accepts task spawns is not a drained or stopped
phase. -/
theorem acceptsSpawn_not_final (ph : ServePhase) (h : ph.acceptsSpawn = true) :
    ph ≠ .drained ∧ ph ≠ .stoppedReported := by
  cases ph <;> simp_all [ServePhase.acceptsSpawn]

/-- Every lifecycle step preserves the wait-group invariant. -/
theorem serveStep_inv {s t : ServeState} (hstep : ServeStep s t)
    (h : ServeInv s) : ServeInv t := by
  obtain ⟨h1, h2⟩ := h
  cases hstep with
  | spawn b c p f ph hacc =>
    obtain ⟨hd, hs⟩ := acceptsSpawn_not_final ph hacc
    simp only [ServeInv] at h1 h2 ⊢
    refine ⟨by simp_all, ?_⟩
    intro hph
    rcases hph with hph | hph
    · exact absurd hph hd
    · exact absurd hph hs
  | finishTask b c p₁ p₂ f ph hex =>
    simp only [ServeInv] at h1 h2 ⊢
    constructor
    · simp only [List.length_append, List.length_cons] at h1 ⊢
      omega
    · intro hph
      have := h2 hph
      simp at this
  | signal c p f =>
    exact ⟨h1, by intro hph; rcases hph with hph | hph <;> simp at hph⟩
  | shutdownReturns r c p f =>
    exact ⟨h1, by intro hph; rcases hph with hph | hph <;> simp at hph⟩
  | shutdownFailed e c p f =>
    exact ⟨h1, by intro hph; rcases hph with hph | hph <;> simp at hph⟩
  | beginWait c p f =>
    exact ⟨h1, by intro hph; rcases hph with hph | hph <;> simp at hph⟩
  | waitReturns p f =>
    exact ⟨h1, fun _ => List.length_eq_zero.mp h1.symm⟩
  | reportStopped p f =>
    exact ⟨h1, fun _ => h2 (Or.inl rfl)⟩

/-- The wait-group invariant holds in every reachable lifecycle state. -/
theorem serveReachable_inv {s : ServeState} (h : ServeReachable s) : ServeInv s := by
  induction h with
  | refl => exact ⟨rfl, fun _ => rfl⟩
  | tail _ hstep ih => exact serveStep_inv hstep ih

/-- The clean shutdown path is reachable. -/
theorem stoppedReported_reachable :
    ServeReachable ⟨0, [], 0, .stoppedReported⟩ :=
  Relation.ReflTransGen.tail
    (Relation.ReflTransGen.tail
      (Relation.ReflTransGen.tail
        (Relation.ReflTransGen.tail
          (Relation.ReflTransGen.tail Relation.ReflTransGen.refl
            (ServeStep.signal 0 [] 0))
          (ServeStep.shutdownReturns none 0 [] 0))
        (ServeStep.beginWait 0 [] 0))
      (ServeStep.waitReturns [] 0))
    (ServeStep.reportStopped [] 0)

/-- C5 counterexample: a valid execution in which `srvr.Shutdown` returns
an error (the 30-second grace period expiring), the goroutine sends the
error, and `main` returns it and exits while one background task is still
unfinished — so the process can exit before the drain completes. -/
theorem process_exit_before_drain_reachable :
    ServeReachable ⟨1, [.normal], 0, .exitedWithError .deadlineExceeded⟩ ∧
    (⟨1, [.normal], 0, .exitedWithError .deadlineExceeded⟩ : ServeState).pending ≠ [] := by
  constructor
  · exact Relation.ReflTransGen.tail
      (Relation.ReflTransGen.tail
        (Relation.ReflTransGen.tail
          (Relation.ReflTransGen.tail Relation.ReflTransGen.refl
            (ServeStep.spawn .normal 0 [] 0 .serving rfl))
          (ServeStep.signal 1 [.normal] 0))
        (ServeStep.shutdownReturns (some .deadlineExceeded) 1 [.normal] 0))
      (ServeStep.shutdownFailed .deadlineExceeded 1 [.normal] 0)
  · simp

/-- C5 (amended): each background task decrements the wait-group counter
exactly once, even when its function panics (the recover closure and the
`Done` both run as deferred calls); the drain (`wtgrp.Wait`) returns only
with the counter at zero, so in every reachable state that has passed the
drain — and in particular when the server reports stopped, which happens
only after the listener closed and the drain returned — no background
task is unfinished.  (When `srvr.Shutdown` itself fails, however, `serve`
returns that error without draining, so the process can exit with tasks
pending.) -/
theorem drain_waits_for_background_tasks (body : TaskBody) (s : ServeState)
    (hreach : ServeReachable s)
    (hph : s.phase = .drained ∨ s.phase = .stoppedReported) :
    doneCount (runBackgroundTask body) = 1 ∧
    s.pending = [] ∧ s.counter = 0 := by
  have hinv := serveReachable_inv hreach
  have hp : s.pending = [] := hinv.2 hph
  refine ⟨?_, hp, by rw [hinv.1, hp]; rfl⟩
  cases body <;> rfl

/-- Witness for the amended C5: the clean shutdown path ends with no
pending tasks, and a panicking task still decrements exactly once. -/
theorem drain_waits_for_background_tasks_witness :
    doneCount (runBackgroundTask (.panics "boom")) = 1 ∧
    (⟨0, [], 0, .stoppedReported⟩ : ServeState).pending = [] ∧
    (⟨0, [], 0, .stoppedReported⟩ : ServeState).counter = 0 :=
  drain_waits_for_background_tasks (.panics "boom") ⟨0, [], 0, .stoppedReported⟩
    stoppedReported_reachable (Or.inr rfl)

end FernArchive
